import Mathlib

/-!
Verification of the claude-waifu token dashboard.

Shallow embedding of the price-aggregation route (`src/app/api/token-price/route.ts`),
the chart-data route with its TTL cache (`src/unnamed/part_000`), the SSE streaming
route (`src/unnamed/part_001`), the client stream reconnect logic
(`src/lib/jupiter-client.ts`) and the client emotion/message scheduler and update
reducer (`src/components/waifu-tracker.tsx`).

Numbers from JavaScript are modelled as rationals; timestamps as integers.
JavaScript field access of possibly-absent values is modelled with `Option`,
and the idioms `parseFloat(x) || 0`, `x || null`, string truthiness are given
explicit helper functions.
-/

/-- Model of `parseFloat(x) || 0`: an absent or non-numeric value parses to `NaN`,
which `|| 0` turns into `0`; a parsed number is kept (note `0 || 0 = 0` agrees). -/
def parseOr0 : Option ℚ → ℚ
  | none => 0
  | some q => q

/-- JavaScript truthiness test for an optional string: `null`/`undefined` and the
empty string are falsy. -/
def jsStrFalsy : Option String → Bool
  | none => true
  | some s => s = ""

/-- Model of `a || b` on optional strings (`a` falsy yields `b`). -/
def jsOrStr (a b : Option String) : Option String :=
  if jsStrFalsy a then b else a

/-- Model of `x || null` on an optional string: the empty string collapses to `null`. -/
def jsStrOrNull (a : Option String) : Option String :=
  if jsStrFalsy a then none else a

/-- The six emotions of `waifu-tracker.tsx`. -/
inductive Emotion
  | happy
  | excited
  | neutral
  | worried
  | sad
  | angry
deriving DecidableEq

/-- Embedding of `getEmotionFromChange` (waifu-tracker.tsx lines 73-80). -/
def getEmotionFromChange (change : ℚ) : Emotion :=
  if change > 20 then Emotion.excited
  else if change > 5 then Emotion.happy
  else if change > -5 then Emotion.neutral
  else if change > -15 then Emotion.worried
  else if change > -30 then Emotion.sad
  else Emotion.angry

/-- Embedding of `getEmotionFromShortMove` (waifu-tracker.tsx lines 82-88). -/
def getEmotionFromShortMove (diffRatio : ℚ) : Option Emotion :=
  if diffRatio ≥ (1 : ℚ) / 100 then some Emotion.excited
  else if diffRatio ≥ (3 : ℚ) / 1000 then some Emotion.happy
  else if diffRatio ≤ -((1 : ℚ) / 100) then some Emotion.angry
  else if diffRatio ≤ -((3 : ℚ) / 1000) then some Emotion.sad
  else none

/-!
Upstream provider responses. A `Fetch` is the observable outcome of one
`fetch` + JSON-parse of an upstream API inside a `try` block: `fail` models a
thrown error (network failure, timeout, malformed JSON), `resp ok data` a
parsed response with `ok = response.ok`.
-/

/-- Outcome of one upstream HTTP fetch and JSON parse. -/
inductive Fetch (α : Type)
  | fail
  | resp (ok : Bool) (data : α)
deriving DecidableEq

/-- One element of DexScreener `pairs`. Numeric fields are the raw JSON values
before `parseFloat(...) || 0` is applied (`none` = absent or non-numeric).
`priceWaifugeH24` models the field `priceWaifuge?.h24` read by
`route.ts`/`part_001` and `priceChangeH24` the field `priceChange?.h24` read by
`part_000` -- the source reads these two distinct names. -/
structure DexPair where
  priceUsd : Option ℚ
  priceWaifugeH24 : Option ℚ
  priceChangeH24 : Option ℚ
  volumeH24 : Option ℚ
  liquidityUsd : Option ℚ
  baseTokenSymbol : Option String
  baseTokenName : Option String
  fdv : Option ℚ
  marketCap : Option ℚ
  pairAddress : Option String
deriving DecidableEq

/-- Parsed DexScreener response body; `pairs = none` models `data.pairs` absent. -/
structure DexData where
  pairs : Option (List DexPair)
deriving DecidableEq

/-- The per-token entry of the Jupiter price response (`data.data[tokenAddress]`). -/
structure JupEntry where
  price : Option ℚ
  priceWaifuge24h : Option ℚ
  volume24h : Option ℚ
  symbol : Option String
  name : Option String
deriving DecidableEq

/-- Parsed Jupiter response body; `entry = none` models
`data?.data && data.data[tokenAddress]` failing. -/
structure JupData where
  entry : Option JupEntry
deriving DecidableEq

/-- Inner `data` object of the Birdeye price response. -/
structure BirdPriceInner where
  value : Option ℚ
  price : Option ℚ
deriving DecidableEq

/-- Parsed Birdeye `defi/price` response body. -/
structure BirdPriceData where
  success : Bool
  data : Option BirdPriceInner
deriving DecidableEq

/-- Inner `data` object of the Birdeye overview response. -/
structure BirdOverviewInner where
  priceWaifuge24h : Option ℚ
  volume24h : Option ℚ
deriving DecidableEq

/-- Parsed Birdeye `defi/token_overview` response body. -/
structure BirdOverviewData where
  success : Bool
  data : Option BirdOverviewInner
deriving DecidableEq

/-- Embedding of `data.pairs.sort((a, b) => (b.liquidity?.usd || 0) - (a.liquidity?.usd || 0))[0]`:
stable sort by USD liquidity descending, then the first pair. -/
def bestDexPair (pairs : List DexPair) : Option DexPair :=
  (pairs.mergeSort (fun a b => parseOr0 b.liquidityUsd ≤ parseOr0 a.liquidityUsd)).head?

/-!
Embedding of the price-aggregation endpoint
`GET /api/token-price` (src/app/api/token-price/route.ts).
-/

/-- Provider that produced a successful aggregation result. -/
inductive Source
  | dexscreener
  | jupiter
  | birdeye
deriving DecidableEq

/-- Response of the token-price route. `badRequest` is the 400
`{error: "Token address is required"}` answer; `priced` is a 200 JSON body with
its `success` flag, optional `source` field and data fields. -/
inductive PriceResponse
  | badRequest
  | priced (success : Bool) (source : Option Source)
      (price change24h volume24h : ℚ) (tokenSymbol tokenName : Option String)
deriving DecidableEq

/-- HTTP status of a `PriceResponse`. -/
def PriceResponse.status : PriceResponse → ℕ
  | PriceResponse.badRequest => 400
  | PriceResponse.priced _ _ _ _ _ _ _ => 200

/-- Values the DexScreener attempt of `route.ts` extracts from the best pair
(lines 34-48): parsed price, 24h change, 24h volume and the
`baseToken?.symbol || null` / `baseToken?.name || null` strings. -/
structure DexParsed where
  price : ℚ
  change24h : ℚ
  volume24h : ℚ
  tokenSymbol : Option String
  tokenName : Option String
deriving DecidableEq

/-- Method 1 of `route.ts` (lines 22-65): on an ok response with a nonempty
`pairs` array, extract price and metadata from the highest-liquidity pair. -/
def dexAttempt (dex : Fetch DexData) : Option DexParsed :=
  match dex with
  | Fetch.resp true d =>
    match d.pairs with
    | some ps =>
      match bestDexPair ps with
      | some bp =>
        some { price := parseOr0 bp.priceUsd
               change24h := parseOr0 bp.priceWaifugeH24
               volume24h := parseOr0 bp.volumeH24
               tokenSymbol := jsStrOrNull bp.baseTokenSymbol
               tokenName := jsStrOrNull bp.baseTokenName }
      | none => none
    | none => none
  | _ => none

/-- The `baseToken` symbol and name remembered from the DexScreener attempt
(`dexTokenSymbol` / `dexTokenName` in `route.ts`, lines 19-20 and 47-48). -/
def dexDiscovered (dex : Fetch DexData) : Option String × Option String :=
  match dexAttempt dex with
  | some dp => (dp.tokenSymbol, dp.tokenName)
  | none => (none, none)

/-- Values method 2 of `route.ts` extracts from the Jupiter entry (lines 79-85). -/
structure JupParsed where
  price : ℚ
  change24h : ℚ
  volume24h : ℚ
  symbol : Option String
  name : Option String
deriving DecidableEq

/-- Method 2 of `route.ts` (lines 67-102): on an ok response whose `data` map
contains the token address, parse the entry. -/
def jupAttempt (jup : Fetch JupData) : Option JupParsed :=
  match jup with
  | Fetch.resp true d =>
    match d.entry with
    | some e =>
      some { price := parseOr0 e.price
             change24h := parseOr0 e.priceWaifuge24h
             volume24h := parseOr0 e.volume24h
             symbol := jsStrOrNull e.symbol
             name := jsStrOrNull e.name }
    | none => none
  | _ => none

/-- The Birdeye price extraction of `route.ts` lines 121-126: `price` starts at
0 and is set from `data.data.value` when `data.success` holds and `value` is
defined, otherwise from `data.data.price` when that is defined. Yields `none`
when the response failed or was not ok. -/
def birdAttempt (bird : Fetch BirdPriceData) : Option ℚ :=
  match bird with
  | Fetch.resp true d =>
    some (match d.data with
          | some inner =>
            if d.success ∧ inner.value ≠ none then parseOr0 inner.value
            else if inner.price ≠ none then parseOr0 inner.price
            else 0
          | none => 0)
  | _ => none

/-- The best-effort Birdeye overview fetch of `route.ts` lines 129-149: 24h
change and volume default to 0 unless the overview response is ok, successful
and carries a `data` object. -/
def birdOverviewStats (ov : Fetch BirdOverviewData) : ℚ × ℚ :=
  match ov with
  | Fetch.resp true o =>
    match o.data with
    | some inner =>
      if o.success then (parseOr0 inner.priceWaifuge24h, parseOr0 inner.volume24h)
      else (0, 0)
    | none => (0, 0)
  | _ => (0, 0)

/-- Method 3 of `route.ts` (lines 104-165) followed by the no-price fallthrough
(lines 167-175): with an API key configured, return a Birdeye success when its
price is positive, otherwise the `success: false` body carrying the
DexScreener-discovered symbol/name. -/
def birdStep (birdeyeApiKey : Option String) (bird : Fetch BirdPriceData)
    (birdOv : Fetch BirdOverviewData) (dSym dNm : Option String) : PriceResponse :=
  if jsStrFalsy birdeyeApiKey then PriceResponse.priced false none 0 0 0 dSym dNm
  else
    match birdAttempt bird with
    | some p =>
      if p > 0 then
        PriceResponse.priced true (some Source.birdeye) p
          (birdOverviewStats birdOv).1 (birdOverviewStats birdOv).2 dSym dNm
      else PriceResponse.priced false none 0 0 0 dSym dNm
    | none => PriceResponse.priced false none 0 0 0 dSym dNm

/-- Method 2 of `route.ts` (lines 67-102) and its continuation: return a
Jupiter success when its price is positive — with
`tokenSymbol: dexTokenSymbol || tokenSymbol` and
`tokenName: dexTokenName || tokenName` — otherwise fall through to Birdeye. -/
def jupStep (jup : Fetch JupData) (birdeyeApiKey : Option String)
    (bird : Fetch BirdPriceData) (birdOv : Fetch BirdOverviewData)
    (dSym dNm : Option String) : PriceResponse :=
  match jupAttempt jup with
  | some jp =>
    if jp.price > 0 then
      PriceResponse.priced true (some Source.jupiter) jp.price jp.change24h jp.volume24h
        (jsOrStr dSym jp.symbol) (jsOrStr dNm jp.name)
    else birdStep birdeyeApiKey bird birdOv dSym dNm
  | none => birdStep birdeyeApiKey bird birdOv dSym dNm

/-- Embedding of the `GET` handler of `src/app/api/token-price/route.ts`.
The four `Fetch` arguments are the outcomes the four upstream calls would have
(they are consulted in source order; an argument of a branch that returns
earlier is simply unused, matching the short-circuiting of the source). -/
def tokenPriceGET (address : Option String) (birdeyeApiKey : Option String)
    (dex : Fetch DexData) (jup : Fetch JupData)
    (bird : Fetch BirdPriceData) (birdOv : Fetch BirdOverviewData) : PriceResponse :=
  if jsStrFalsy address then PriceResponse.badRequest
  else
    match dexAttempt dex with
    | some dp =>
      if dp.price > 0 then
        PriceResponse.priced true (some Source.dexscreener) dp.price dp.change24h dp.volume24h
          dp.tokenSymbol dp.tokenName
      else jupStep jup birdeyeApiKey bird birdOv (dexDiscovered dex).1 (dexDiscovered dex).2
    | none => jupStep jup birdeyeApiKey bird birdOv (dexDiscovered dex).1 (dexDiscovered dex).2

/-!
Embedding of the SSE streaming route (src/unnamed/part_001): its private
`fetchTokenData` aggregator and the `pollTokenData` step of the per-connection
polling loop.
-/

/-- The object returned by the `fetchTokenData` aggregator of part_001:
`{ price, change24h, volume24h, supply, decimals }`. -/
structure StreamFetched where
  price : ℚ
  change24h : ℚ
  volume24h : ℚ
  supply : ℚ
  decimals : ℚ
deriving DecidableEq

/-- JavaScript truthiness of an optional number (`undefined`, `NaN` and `0` are
falsy; a parsed non-zero number is truthy). -/
def jsNumTruthy : Option ℚ → Bool
  | none => false
  | some q => ¬ q = 0

/-- The DexScreener leg of part_001 `fetchTokenData` (lines 36-72): price,
change, volume and the supply derived from `fdv / price` or
`marketCap / price`. Yields `none` when the response failed, was not ok, or has
no pairs (the mutable locals then keep their initial zeros). -/
def streamDexParsed (dex : Fetch DexData) : Option (ℚ × ℚ × ℚ × ℚ) :=
  match dex with
  | Fetch.resp true d =>
    match d.pairs with
    | some ps =>
      match bestDexPair ps with
      | some bp =>
        let price := parseOr0 bp.priceUsd
        let supply :=
          if jsNumTruthy bp.fdv ∧ price > 0 then parseOr0 bp.fdv / price
          else if jsNumTruthy bp.marketCap ∧ price > 0 then parseOr0 bp.marketCap / price
          else 0
        some (price, parseOr0 bp.priceWaifugeH24, parseOr0 bp.volumeH24, supply)
      | none => none
    | none => none
  | _ => none

/-- The assignment the Birdeye leg of part_001 makes to the mutable `price`
local (lines 115-122): outer `none` when the response failed or was not ok
(the leg is skipped by the catch), inner `none` when neither branch of the
`if / else if` fires (the old `price` value survives), `some q` when a branch
assigns the parsed value `q`. -/
def streamBirdPrice (bird : Fetch BirdPriceData) : Option (Option ℚ) :=
  match bird with
  | Fetch.resp true d =>
    some (match d.data with
          | some inner =>
            if d.success ∧ inner.value ≠ none then some (parseOr0 inner.value)
            else if inner.price ≠ none then some (parseOr0 inner.price)
            else none
          | none => none)
  | _ => none

/-- The assignment the best-effort overview fetch of part_001 makes to the
mutable `change24h` / `volume24h` locals (lines 126-142): `none` when the
overview fetch failed, was not ok, was unsuccessful or had no `data` (the old
values survive), `some` of the parsed pair otherwise. -/
def streamBirdOverview (ov : Fetch BirdOverviewData) : Option (ℚ × ℚ) :=
  match ov with
  | Fetch.resp true o =>
    match o.data with
    | some inner =>
      if o.success then some (parseOr0 inner.priceWaifuge24h, parseOr0 inner.volume24h)
      else none
    | none => none
  | _ => none

/-- Embedding of part_001 `fetchTokenData` (lines 30-154). The mutable locals
`price`, `change24h`, `volume24h`, `supply` (all initialised to 0) are threaded
through the three provider legs as the tuples `s1`, `s2`; the function returns
on the first leg leaving a positive price and otherwise throws
`"No price data available from any source"`. -/
def serverFetchTokenData (birdeyeApiKey : Option String) (dex : Fetch DexData)
    (jup : Fetch JupData) (bird : Fetch BirdPriceData) (birdOv : Fetch BirdOverviewData) :
    Except String StreamFetched :=
  let noData : Except String StreamFetched :=
    Except.error "No price data available from any source"
  let dexSt := streamDexParsed dex
  -- locals after the DexScreener leg
  let s1 : ℚ × ℚ × ℚ × ℚ := dexSt.getD (0, 0, 0, 0)
  let jupSt := jupAttempt jup
  -- locals after the Jupiter leg (lines 86-90); `supply` is not reassigned there
  let s2 : ℚ × ℚ × ℚ × ℚ :=
    match jupSt with
    | some jp => (jp.price, jp.change24h, jp.volume24h, s1.2.2.2)
    | none => s1
  let birdLeg : Except String StreamFetched :=
    if jsStrFalsy birdeyeApiKey then noData
    else
      match streamBirdPrice bird with
      | some assigned =>
        let price := match assigned with | some q => q | none => s2.1
        if price > 0 then
          let stats :=
            match streamBirdOverview birdOv with
            | some st => st
            | none => (s2.2.1, s2.2.2.1)
          Except.ok ⟨price, stats.1, stats.2, s2.2.2.2, 9⟩
        else noData
      | none => noData
  let jupLeg : Except String StreamFetched :=
    match jupSt with
    | some jp =>
      if jp.price > 0 then Except.ok ⟨jp.price, jp.change24h, jp.volume24h, s1.2.2.2, 9⟩
      else birdLeg
    | none => birdLeg
  match dexSt with
  | some (p, c, v, su) => if p > 0 then Except.ok ⟨p, c, v, su, 9⟩ else jupLeg
  | none => jupLeg

/-- The per-connection server state of part_001: the `lastData` object
`{ supply, price, decimals }` (lines 171-175). -/
structure LastData where
  supply : ℚ
  price : ℚ
  decimals : ℚ
deriving DecidableEq

/-- Initial `lastData`: `{ supply: 0, price: 0, decimals: 9 }`. -/
def initLastData : LastData := ⟨0, 0, 9⟩

/-- SSE frames the stream route can emit (the `TokenUpdateEvent` shapes built
in part_001). -/
inductive StreamEvent
  | connected
  | update (supply decimals price marketCap change24h volume24h timestamp : ℚ)
  | errorEvent (message : String)
  | keepalive
deriving DecidableEq

/-- Whether a frame is an `update` event. -/
def isUpdateEvent : StreamEvent → Bool
  | StreamEvent.update _ _ _ _ _ _ _ => true
  | _ => false

/-- The `{ supply, price, decimals }` record one `pollTokenData` round derives
from a fetched snapshot (part_001 lines 204-206 and 219-223):
`parseFloat(price) || 0`, `supply ? parseFloat(supply) : 0`, `decimals || 9`. -/
def derivedLastData (td : StreamFetched) : LastData :=
  { supply := if td.supply = 0 then 0 else td.supply
    price := td.price
    decimals := if td.decimals = 0 then 9 else td.decimals }

/-- Embedding of one `pollTokenData` round (part_001 lines 194-249) given the
outcome of its `fetchTokenData` call and the current time: the new `lastData`
and the frames sent in this round. -/
def pollStep (last : LastData) (fetched : Except String StreamFetched) (now : ℚ) :
    LastData × List StreamEvent :=
  match fetched with
  | Except.error msg => (last, [StreamEvent.errorEvent msg])
  | Except.ok td =>
    if (derivedLastData td).price ≠ last.price ∨ (derivedLastData td).supply ≠ last.supply ∨
        (derivedLastData td).decimals ≠ last.decimals ∨ last.price = 0 then
      (derivedLastData td,
       [StreamEvent.update (derivedLastData td).supply (derivedLastData td).decimals
          (derivedLastData td).price
          (if (derivedLastData td).price > 0 ∧ (derivedLastData td).supply > 0 then
            (derivedLastData td).price * (derivedLastData td).supply
          else 0)
          td.change24h td.volume24h now])
    else (last, [])

/-- Inputs of one polling round: the upstream outcomes its `fetchTokenData`
call observes plus the wall-clock time of the round. -/
structure PollArgs where
  birdeyeApiKey : Option String
  dex : Fetch DexData
  jup : Fetch JupData
  bird : Fetch BirdPriceData
  birdOv : Fetch BirdOverviewData
  now : ℚ

/-- The `fetchTokenData` outcome of one polling round. -/
def PollArgs.fetched (a : PollArgs) : Except String StreamFetched :=
  serverFetchTokenData a.birdeyeApiKey a.dex a.jup a.bird a.birdOv

/-- A run of the polling loop from a fresh connection: fold `pollTokenData`
rounds over the successive upstream outcomes, collecting all frames sent. -/
def runPoll (rounds : List PollArgs) : LastData × List StreamEvent :=
  rounds.foldl
    (fun st a =>
      let r := pollStep st.1 a.fetched a.now
      (r.1, st.2 ++ r.2))
    (initLastData, [])

/-!
Embedding of the chart-data route and its in-memory TTL cache
(src/unnamed/part_000).
-/

/-- The `result` object the chart route builds and caches (part_000
lines 100-107). -/
structure ChartResult where
  success : Bool
  price : ℚ
  priceChange24h : ℚ
  volume24h : ℚ
  pairAddress : Option String
  pairData : DexPair
deriving DecidableEq

/-- One cache slot: `{ data, timestamp }` (part_000 line 12). -/
structure CacheEntry where
  data : ChartResult
  timestamp : ℤ
deriving DecidableEq

/-- The in-memory cache `Map`, as its insertion-ordered entry list with unique
keys (`Map.set` on an existing key updates in place, otherwise appends). -/
abbrev ChartCache := List (String × CacheEntry)

/-- Cache TTL: 5000 ms (part_000 line 13). -/
def CACHE_TTL : ℤ := 5000

/-- Embedding of `cache.set(key, entry)` on a JavaScript `Map`. -/
def cacheSet (cache : ChartCache) (key : String) (e : CacheEntry) : ChartCache :=
  if cache.any (fun p => p.1 = key) then
    cache.map (fun p => if p.1 = key then (key, e) else p)
  else cache ++ [(key, e)]

/-- Embedding of `getCachedData` (part_000 lines 15-21): a hit only within the
TTL. -/
def getCachedData (cache : ChartCache) (tokenAddress : String) (now : ℤ) : Option ChartResult :=
  match List.lookup tokenAddress cache with
  | some cached => if now - cached.timestamp < CACHE_TTL then some cached.data else none
  | none => none

/-- Embedding of `setCachedData` (part_000 lines 23-33): insert the entry; when
the store then exceeds 100 entries, sort all entries by timestamp descending
(stable, as ECMAScript `sort` is) and keep the first 100, re-inserted in that
order. -/
def setCachedData (cache : ChartCache) (tokenAddress : String) (data : ChartResult) (now : ℤ) :
    ChartCache :=
  if 100 < (cacheSet cache tokenAddress ⟨data, now⟩).length then
    ((cacheSet cache tokenAddress ⟨data, now⟩).mergeSort
      (fun a b => b.2.timestamp ≤ a.2.timestamp)).take 100
  else cacheSet cache tokenAddress ⟨data, now⟩

/-- Responses of the chart route. `okFresh` is the 200 answer for a fresh
result or an in-TTL cache hit; `okCachedFallback` is the 200 answer
`{ ...staleCache.data, cached: true, warning }` used on rate-limit or error
fallback. -/
inductive ChartResponse
  | badRequestMissing
  | okFresh (body : ChartResult)
  | okCachedFallback (body : ChartResult) (warning : String)
  | rateLimited
  | upstreamError (status : ℤ)
  | notFoundPairs
  | invalidPrice
  | serverError
deriving DecidableEq

/-- Outcome of the upstream DexScreener call of the chart route: `uThrow` when
`fetch` or `response.json()` throws (caught by the route), `uStatus s` a non-ok
response with status `s`, `uOk` an ok response with parsed body. -/
inductive UpstreamResult
  | uThrow
  | uStatus (status : ℤ)
  | uOk (data : DexData)
deriving DecidableEq

/-- Embedding of the chart route `GET` handler (part_000 lines 35-130),
returning the response and the cache after the request. `upstream` is the
outcome the DexScreener call would have; it is only consulted when the in-TTL
cache lookup misses, matching the early return of the source. -/
def chartGET (address : Option String) (cache : ChartCache) (now : ℤ)
    (upstream : UpstreamResult) : ChartResponse × ChartCache :=
  match address with
  | none => (ChartResponse.badRequestMissing, cache)
  | some a =>
    if a = "" then (ChartResponse.badRequestMissing, cache)
    else
      match getCachedData cache a now with
      | some cached => (ChartResponse.okFresh cached, cache)
      | none =>
        match upstream with
        | UpstreamResult.uThrow =>
          match List.lookup a cache with
          | some stale =>
            (ChartResponse.okCachedFallback stale.data
              "Error fetching fresh data, returning cached data", cache)
          | none => (ChartResponse.serverError, cache)
        | UpstreamResult.uStatus s =>
          if s = 429 then
            match List.lookup a cache with
            | some stale =>
              (ChartResponse.okCachedFallback stale.data
                "Rate limited, returning cached data", cache)
            | none => (ChartResponse.rateLimited, cache)
          else (ChartResponse.upstreamError s, cache)
        | UpstreamResult.uOk d =>
          match d.pairs with
          | none => (ChartResponse.notFoundPairs, cache)
          | some ps =>
            match bestDexPair ps with
            | none => (ChartResponse.notFoundPairs, cache)
            | some bp =>
              let currentPrice := parseOr0 bp.priceUsd
              if currentPrice = 0 then (ChartResponse.invalidPrice, cache)
              else
                let result : ChartResult :=
                  { success := true
                    price := currentPrice
                    priceChange24h := parseOr0 bp.priceChangeH24
                    volume24h := parseOr0 bp.volumeH24
                    pairAddress := bp.pairAddress
                    pairData := bp }
                (ChartResponse.okFresh result, setCachedData cache a result now)

/-!
Embedding of the client stream reconnect logic
(`createTokenSSEStream`, src/lib/jupiter-client.ts lines 146-234).
-/

/-- What the `eventSource.onerror` handler does after the transport reports a
closed connection. -/
inductive ReconnectAction
  | ignore
  | reconnectAfter (delayMs : ℕ)
  | terminalError
deriving DecidableEq

/-- `maxReconnectAttempts` (jupiter-client.ts line 156). -/
def maxReconnectAttempts : ℕ := 10

/-- Embedding of the `onerror` branch for a closed `EventSource`
(jupiter-client.ts lines 204-218): when the stream is not closed by the
caller, increment `reconnectAttempts`; within the attempt budget schedule a
reconnect after `Math.min(1000 * Math.pow(2, reconnectAttempts), 30000)` ms,
beyond it surface the terminal `Max reconnect attempts reached` error.
Returns the new `reconnectAttempts` and the action taken. -/
def onStreamClosedError (isClosed : Bool) (reconnectAttempts : ℕ) : ℕ × ReconnectAction :=
  if isClosed then (reconnectAttempts, ReconnectAction.ignore)
  else
    let a := reconnectAttempts + 1
    if a ≤ maxReconnectAttempts then
      (a, ReconnectAction.reconnectAfter (min (1000 * 2 ^ a) 30000))
    else (a, ReconnectAction.terminalError)

/-!
Embedding of the message scheduler of `waifu-tracker.tsx`
(`scheduleMessage`, lines 186-223, and the timer callback it arms).
-/

/-- The scheduler refs of the tracker component: `lastMessageAtRef` (0 at
mount), `lastMessageEmotionRef`, `pendingEmotionRef`, `messageTimerRef`
(modelled by the absolute time the armed timeout fires at or later). The
ghost fields `announced` (newest first) and `clock` record the
`generateMessage` calls made so far and the current time. -/
structure SchedState where
  lastMessageAt : ℤ
  lastMessageEmotion : Option Emotion
  pendingEmotion : Option Emotion
  messageTimer : Option ℤ
  announced : List (ℤ × Emotion)
  clock : ℤ
deriving DecidableEq

/-- Scheduler state when the component mounts. -/
def initSched : SchedState :=
  { lastMessageAt := 0, lastMessageEmotion := none, pendingEmotion := none
    messageTimer := none, announced := [], clock := 0 }

/-- Embedding of `scheduleMessage(newEmotion)` called at time `now`
(waifu-tracker.tsx lines 186-223). -/
def scheduleMessage (s : SchedState) (newEmotion : Emotion) (now : ℤ) : SchedState :=
  let s := { s with clock := now }
  -- do not schedule if the emotion has not changed from the last message
  if s.lastMessageEmotion = some newEmotion then s
  else
    let s := { s with pendingEmotion := some newEmotion }
    let elapsed := now - s.lastMessageAt
    -- enough time has passed and no timer running: send immediately
    if 5000 ≤ elapsed ∧ s.messageTimer = none then
      { s with lastMessageAt := now, lastMessageEmotion := some newEmotion
               announced := (now, newEmotion) :: s.announced }
    -- a timer is already running: only the pending emotion was updated
    else if s.messageTimer.isSome then s
    -- otherwise arm a timer for the remaining time until the 5 s floor
    else { s with messageTimer := some (now + max 0 (5000 - elapsed)) }

/-- Embedding of the armed `setTimeout` callback firing at time `now`
(waifu-tracker.tsx lines 213-220). -/
def fireMessageTimer (s : SchedState) (now : ℤ) : SchedState :=
  let s := { s with clock := now, messageTimer := none }
  match s.pendingEmotion with
  | none => s
  | some p =>
    if s.lastMessageEmotion = some p then s
    else
      { s with lastMessageAt := now, lastMessageEmotion := some p
               announced := (now, p) :: s.announced }

/-- External events driving the scheduler: a `scheduleMessage` call or the
armed timeout firing, each at an absolute time. -/
inductive SchedEvent
  | emote (e : Emotion) (t : ℤ)
  | timer (t : ℤ)
deriving DecidableEq

/-- State transition for one scheduler event. -/
def schedStep (s : SchedState) : SchedEvent → SchedState
  | SchedEvent.emote e t => scheduleMessage s e t
  | SchedEvent.timer t => fireMessageTimer s t

/-- Whether an event can occur in state `s`: time never goes backwards, and the
timeout callback runs only while a timer is armed, at or after its due time. -/
def validEvent (s : SchedState) : SchedEvent → Bool
  | SchedEvent.emote _ t => s.clock ≤ t
  | SchedEvent.timer t =>
    decide (s.clock ≤ t) && match s.messageTimer with
                            | some due => decide (due ≤ t)
                            | none => false

/-- Whether a whole event trace is valid from state `s`. -/
def validTrace (s : SchedState) : List SchedEvent → Bool
  | [] => true
  | e :: es => validEvent s e && validTrace (schedStep s e) es

/-- Run a trace of scheduler events. -/
def runSched (s : SchedState) (tr : List SchedEvent) : SchedState :=
  tr.foldl schedStep s

/-- Deliver a burst of emotion changes (`scheduleMessage` calls only). -/
def emoteBurst (s : SchedState) (burst : List (Emotion × ℤ)) : SchedState :=
  burst.foldl (fun st p => scheduleMessage st p.1 p.2) s

/-!
Embedding of the client update reducer
(`handleRealtimeUpdate`, waifu-tracker.tsx lines 225-285). The reducer
receives `Partial<TokenData>` objects; since JSON payloads never carry
`undefined` values, such an object is a record of optional fields, where
`none` means the key is absent and the spread `{ ...prev, ...updatedData }`
keeps the previous value.
-/

/-- A JavaScript `TokenData` or `Partial<TokenData>` object: every field may be
absent. -/
structure TokenDataObj where
  address : Option String
  supply : Option ℚ
  decimals : Option ℚ
  price : Option ℚ
  marketCap : Option ℚ
  change24h : Option ℚ
  volume24h : Option ℚ
  name : Option String
  symbol : Option String
  logoURI : Option String
  lastUpdated : Option ℚ
deriving DecidableEq

/-- The all-absent object. -/
def emptyTokenObj : TokenDataObj :=
  ⟨none, none, none, none, none, none, none, none, none, none, none⟩

/-- Field-level spread: the update value wins when the key is present. -/
def mergeField {α : Type} (prev upd : Option α) : Option α :=
  match upd with
  | some v => some v
  | none => prev

/-- Embedding of `{ ...prev, ...updatedData }`. -/
def mergeTokenData (prev upd : TokenDataObj) : TokenDataObj :=
  { address := mergeField prev.address upd.address
    supply := mergeField prev.supply upd.supply
    decimals := mergeField prev.decimals upd.decimals
    price := mergeField prev.price upd.price
    marketCap := mergeField prev.marketCap upd.marketCap
    change24h := mergeField prev.change24h upd.change24h
    volume24h := mergeField prev.volume24h upd.volume24h
    name := mergeField prev.name upd.name
    symbol := mergeField prev.symbol upd.symbol
    logoURI := mergeField prev.logoURI upd.logoURI
    lastUpdated := mergeField prev.lastUpdated upd.lastUpdated }

/-- JavaScript comparison `x > 0` on a possibly-absent number (`undefined > 0`
is false). -/
def jsGtZero : Option ℚ → Bool
  | some q => 0 < q
  | none => false

/-- The `setTokenData` updater body of `handleRealtimeUpdate`
(waifu-tracker.tsx lines 233-283), restricted to the token state it returns:
with no previous state, the update becomes the initial state only when it
carries a truthy `address` and a defined `supply`; otherwise the update is
spread over the previous state and `marketCap` is recomputed when price and
supply are positive. -/
def applyRealtimeUpdate (prev : Option TokenDataObj) (updatedData : TokenDataObj) :
    Option TokenDataObj :=
  match prev with
  | none =>
    if ¬ jsStrFalsy updatedData.address ∧ updatedData.supply ≠ none then some updatedData
    else none
  | some p =>
    let merged := mergeTokenData p updatedData
    if jsGtZero merged.price ∧ jsGtZero merged.supply then
      some { merged with
             marketCap := some (merged.price.getD 0 * merged.supply.getD 0) }
    else some merged

/-- `UPDATE_THROTTLE_MS` (waifu-tracker.tsx line 32). -/
def UPDATE_THROTTLE_MS : ℤ := 500

/-- Embedding of `handleRealtimeUpdate` (waifu-tracker.tsx lines 225-285)
given `lastUpdateRef` and the current time: updates arriving within the
throttle window of the last accepted one return before touching any state.
Returns the new `lastUpdateRef`, the new token state, and whether the update
was accepted. -/
def handleRealtimeUpdate (lastUpdate : ℤ) (now : ℤ) (tokenState : Option TokenDataObj)
    (updatedData : TokenDataObj) : ℤ × Option TokenDataObj × Bool :=
  if now - lastUpdate < UPDATE_THROTTLE_MS then (lastUpdate, tokenState, false)
  else (now, applyRealtimeUpdate tokenState updatedData, true)

/-- The `Partial<TokenData>` object carried by a server `update` frame
(part_001 lines 226-238): it has `supply`, `decimals`, `price`, `marketCap`,
`change24h`, `volume24h` and `timestamp` keys -- and no `address`. The
`timestamp` key is not a `TokenData` field, so the object it merges into
carries no corresponding entry. -/
def updateEventData : StreamEvent → Option TokenDataObj
  | StreamEvent.update supply decimals price marketCap change24h volume24h _timestamp =>
    some { emptyTokenObj with
           supply := some supply, decimals := some decimals, price := some price
           marketCap := some marketCap, change24h := some change24h
           volume24h := some volume24h }
  | _ => none

/-!
Claim theorems.
-/

/-- C2, counterexample: the claim asserts that `change24h = 5.0` classifies as
`happy`; the classifier uses the strict comparison `change > 5`, so `5.0`
falls through to the `> -5` branch and classifies as `neutral`. -/
theorem c2_counterexample :
    getEmotionFromChange 5 = Emotion.neutral ∧ Emotion.neutral ≠ Emotion.happy := by
  decide

/-- C2, amended: the classifier is a total function on the rationals following
the thresholds `>20` excited, `>5` happy, `>-5` neutral, `>-15` worried,
`>-30` sad, else angry, with strict boundaries, so that `change24h = 5.0`
classifies as `neutral` (not `happy`). -/
theorem c2_amended :
    ∀ change : ℚ,
      (20 < change → getEmotionFromChange change = Emotion.excited) ∧
      (5 < change → change ≤ 20 → getEmotionFromChange change = Emotion.happy) ∧
      (-5 < change → change ≤ 5 → getEmotionFromChange change = Emotion.neutral) ∧
      (-15 < change → change ≤ -5 → getEmotionFromChange change = Emotion.worried) ∧
      (-30 < change → change ≤ -15 → getEmotionFromChange change = Emotion.sad) ∧
      (change ≤ -30 → getEmotionFromChange change = Emotion.angry) := by
  intro change
  refine ⟨?_, ?_, ?_, ?_, ?_, ?_⟩ <;> intros <;>
    (unfold getEmotionFromChange; split_ifs <;> first | rfl | linarith)

/-- Witness for C2: the amended theorem applied at `change24h = 5`. -/
theorem c2_amended_witness : getEmotionFromChange 5 = Emotion.neutral :=
  (c2_amended 5).2.2.1 (by norm_num) (by norm_num)

/-- C5, counterexample: the claim asserts the first retry delay is 1 s; the
code computes `Math.min(1000 * 2 ^ reconnectAttempts, 30000)` after the
increment, so the first retry is scheduled after 2000 ms. -/
theorem c5_counterexample :
    onStreamClosedError false 0 = (1, ReconnectAction.reconnectAfter 2000) ∧
    (2000 : ℕ) ≠ 1000 := by
  decide

/-- C5, amended: on transport error with the stream not closed, the `n`-th
failure (0-based attempt counter) within the budget of 10 schedules a
reconnect after `min (1000 * 2 ^ (n+1)) 30000` ms — so the delay starts at
2 s on the first retry, doubles (capped at 30 s) on each subsequent retry,
and never exceeds 30 s; beyond 10 attempts a terminal error is surfaced
instead of retrying. -/
theorem c5_amended :
    ∀ n : ℕ,
      (onStreamClosedError false 0 = (1, ReconnectAction.reconnectAfter 2000)) ∧
      (n + 1 ≤ maxReconnectAttempts →
        onStreamClosedError false n =
          (n + 1, ReconnectAction.reconnectAfter (min (1000 * 2 ^ (n + 1)) 30000))) ∧
      (∀ d, n + 2 ≤ maxReconnectAttempts →
        (onStreamClosedError false n).2 = ReconnectAction.reconnectAfter d →
        (onStreamClosedError false (n + 1)).2 =
          ReconnectAction.reconnectAfter (min (2 * d) 30000)) ∧
      (∀ d, (onStreamClosedError false n).2 = ReconnectAction.reconnectAfter d →
        d ≤ 30000) ∧
      (maxReconnectAttempts < n + 1 →
        onStreamClosedError false n = (n + 1, ReconnectAction.terminalError)) ∧
      (onStreamClosedError true n = (n, ReconnectAction.ignore)) := by
  intro n
  have step : ∀ m : ℕ, m + 1 ≤ maxReconnectAttempts →
      onStreamClosedError false m =
        (m + 1, ReconnectAction.reconnectAfter (min (1000 * 2 ^ (m + 1)) 30000)) := by
    intro m hm
    unfold onStreamClosedError
    simp [hm]
  refine ⟨by decide, step n, ?_, ?_, ?_, ?_⟩
  · intro d h2 hd
    have h1 : n + 1 ≤ maxReconnectAttempts := by omega
    rw [step n h1] at hd
    have hdval : d = min (1000 * 2 ^ (n + 1)) 30000 := by
      exact (ReconnectAction.reconnectAfter.injEq _ _).mp hd.symm
    subst hdval
    rw [step (n + 1) h2]
    show ReconnectAction.reconnectAfter (min (1000 * 2 ^ (n + 1 + 1)) 30000) = _
    congr 1
    have hpow : 1000 * 2 ^ (n + 1 + 1) = 2 * (1000 * 2 ^ (n + 1)) := by ring
    rw [hpow]
    generalize 1000 * 2 ^ (n + 1) = X
    omega
  · intro d hd
    unfold onStreamClosedError at hd
    by_cases h : n + 1 ≤ maxReconnectAttempts
    · simp [h] at hd
      omega
    · simp [h] at hd
  · intro h
    unfold onStreamClosedError
    have : ¬ n + 1 ≤ maxReconnectAttempts := by omega
    simp [this]
  · unfold onStreamClosedError
    simp

/-- Witness for C5: the amended theorem applied at attempts 3 (fourth retry,
16 s delay) and 10 (budget exhausted, terminal error). -/
theorem c5_amended_witness :
    onStreamClosedError false 3 = (4, ReconnectAction.reconnectAfter 16000) ∧
    onStreamClosedError false 10 = (11, ReconnectAction.terminalError) := by
  constructor
  · have h := (c5_amended 3).2.1 (by decide)
    simpa using h
  · have h := (c5_amended 10).2.2.2.2.1 (by decide)
    simpa using h

/-- C9, confirmed: an update arriving less than `UPDATE_THROTTLE_MS` (500 ms)
after the last accepted update is dropped, leaving the throttle reference and
the token state unchanged; and an accepted update followed 100 ms later by a
second one leaves the second unapplied. -/
theorem c9_debounce :
    (∀ (lastUpdate now : ℤ) (st : Option TokenDataObj) (u : TokenDataObj),
      now - lastUpdate < UPDATE_THROTTLE_MS →
      handleRealtimeUpdate lastUpdate now st u = (lastUpdate, st, false)) ∧
    (∀ (lastUpdate t : ℤ) (st : Option TokenDataObj) (u1 u2 : TokenDataObj),
      UPDATE_THROTTLE_MS ≤ t - lastUpdate →
      handleRealtimeUpdate lastUpdate t st u1 = (t, applyRealtimeUpdate st u1, true) ∧
      handleRealtimeUpdate t (t + 100) (applyRealtimeUpdate st u1) u2 =
        (t, applyRealtimeUpdate st u1, false)) := by
  constructor
  · intro lastUpdate now st u h
    unfold handleRealtimeUpdate
    rw [if_pos h]
  · intro lastUpdate t st u1 u2 h
    constructor
    · unfold handleRealtimeUpdate
      rw [if_neg (by omega)]
    · unfold handleRealtimeUpdate
      rw [if_pos (by unfold UPDATE_THROTTLE_MS; omega)]

/-- Witness for C9: the two-updates-100-ms-apart scenario at concrete times
(last accepted at 0, updates at 1000 and 1100) on the empty state. -/
theorem c9_debounce_witness :
    handleRealtimeUpdate 0 1000 none emptyTokenObj =
      (1000, applyRealtimeUpdate none emptyTokenObj, true) ∧
    handleRealtimeUpdate 1000 1100 (applyRealtimeUpdate none emptyTokenObj) emptyTokenObj =
      (1000, applyRealtimeUpdate none emptyTokenObj, false) :=
  c9_debounce.2 0 1000 none emptyTokenObj emptyTokenObj (by decide)

/-- C10, confirmed: with no prior token state, an update initialises the state
iff it carries a truthy `address` and a defined `supply`; server stream
`update` frames never carry an `address`, so before the initial full fetch
completes every stream update is discarded and the state stays `none`
(whether the throttle drops it or the reducer rejects it). -/
theorem c10_no_init_from_stream :
    (∀ u : TokenDataObj,
      applyRealtimeUpdate none u = none ↔ (jsStrFalsy u.address = true ∨ u.supply = none)) ∧
    (∀ (ev : StreamEvent) (pd : TokenDataObj), updateEventData ev = some pd →
      pd.address = none) ∧
    (∀ (lastUpdate now : ℤ) (pd : TokenDataObj), pd.address = none →
      (handleRealtimeUpdate lastUpdate now none pd).2.1 = none) := by
  refine ⟨?_, ?_, ?_⟩
  · intro u
    unfold applyRealtimeUpdate
    split_ifs with h
    · simp only [reduceCtorEq, false_iff]
      push_neg
      rcases h with ⟨h1, h2⟩
      constructor
      · simpa using h1
      · exact h2
    · simp only [true_iff]
      by_cases h1 : jsStrFalsy u.address = true
      · exact Or.inl h1
      · right
        by_contra h2
        exact h ⟨by simpa using h1, h2⟩
  · intro ev pd h
    cases ev <;> simp only [updateEventData, Option.some.injEq, reduceCtorEq] at h
    subst h
    rfl
  · intro lastUpdate now pd h
    unfold handleRealtimeUpdate
    split_ifs
    · rfl
    · show applyRealtimeUpdate none pd = none
      unfold applyRealtimeUpdate
      rw [if_neg]
      intro hc
      rcases hc with ⟨h1, _⟩
      rw [h] at h1
      exact h1 rfl

/-- Witness for C10: a concrete server `update` frame delivered to the empty
state is discarded. -/
theorem c10_no_init_from_stream_witness :
    (handleRealtimeUpdate 0 1000 none
      { emptyTokenObj with supply := some 5, decimals := some 9, price := some 1
                           marketCap := some 5, change24h := some 0
                           volume24h := some 0 }).2.1 = none :=
  c10_no_init_from_stream.2.2 0 1000 _ (by rfl)

/-- C6, confirmed: when the in-TTL lookup misses (so the upstream call is
made) and the upstream call returns HTTP 429 or throws, an existing cache
entry for the address — however old — is returned annotated with the
cached/warning flag; only with no cache entry at all does the route answer
429 or 500. -/
theorem c6_stale_cache_fallback :
    ∀ (a : String) (cache : ChartCache) (now : ℤ),
      a ≠ "" →
      getCachedData cache a now = none →
      (∀ e, List.lookup a cache = some e →
        chartGET (some a) cache now UpstreamResult.uThrow =
          (ChartResponse.okCachedFallback e.data
            "Error fetching fresh data, returning cached data", cache) ∧
        chartGET (some a) cache now (UpstreamResult.uStatus 429) =
          (ChartResponse.okCachedFallback e.data
            "Rate limited, returning cached data", cache)) ∧
      (List.lookup a cache = none →
        chartGET (some a) cache now UpstreamResult.uThrow =
          (ChartResponse.serverError, cache) ∧
        chartGET (some a) cache now (UpstreamResult.uStatus 429) =
          (ChartResponse.rateLimited, cache)) := by
  intro a cache now ha hmiss
  constructor
  · intro e he
    constructor <;> simp [chartGET, hmiss, he, ha]
  · intro he
    constructor <;> simp [chartGET, hmiss, he, ha]

/-- A DexScreener pair with every field absent, for concrete witnesses. -/
def emptyDexPair : DexPair :=
  ⟨none, none, none, none, none, none, none, none, none, none⟩

/-- A concrete cached chart result used in witnesses. -/
def witnessChartResult : ChartResult :=
  { success := true, price := 1, priceChange24h := 0, volume24h := 0
    pairAddress := none, pairData := emptyDexPair }

/-- Witness for C6: a cache whose only entry for `"A"` was written at time 0 is
stale at time 10000 (TTL 5000), yet is served with the rate-limit warning. -/
theorem c6_stale_cache_fallback_witness :
    chartGET (some "A") [("A", ⟨witnessChartResult, 0⟩)] 10000 (UpstreamResult.uStatus 429) =
      (ChartResponse.okCachedFallback witnessChartResult
        "Rate limited, returning cached data", [("A", ⟨witnessChartResult, 0⟩)]) :=
  ((c6_stale_cache_fallback "A" [("A", ⟨witnessChartResult, 0⟩)] 10000 (by decide)
      (by decide)).1 ⟨witnessChartResult, 0⟩ (by decide)).2

/-- C7, confirmed: after any completed `setCachedData`, the store holds at
most 100 entries; and whenever the insertion makes the store exceed 100, the
kept entries are exactly 100, they are a sub-permutation of the store with a
nonempty remainder dropped, and every dropped entry has a write timestamp no
newer than every kept entry. -/
theorem c7_cache_capacity :
    ∀ (cache : ChartCache) (addr : String) (d : ChartResult) (now : ℤ),
      (setCachedData cache addr d now).length ≤ 100 ∧
      (100 < (cacheSet cache addr ⟨d, now⟩).length →
        (setCachedData cache addr d now).length = 100 ∧
        ∃ dropped : ChartCache,
          dropped ≠ [] ∧
          (cacheSet cache addr ⟨d, now⟩).Perm (setCachedData cache addr d now ++ dropped) ∧
          ∀ x ∈ dropped, ∀ y ∈ setCachedData cache addr d now,
            x.2.timestamp ≤ y.2.timestamp) := by
  intro cache addr d now
  by_cases h : 100 < (cacheSet cache addr ⟨d, now⟩).length
  · have hset : setCachedData cache addr d now =
        ((cacheSet cache addr ⟨d, now⟩).mergeSort
          (fun a b => b.2.timestamp ≤ a.2.timestamp)).take 100 := by
      unfold setCachedData
      rw [if_pos h]
    have hlen : ((cacheSet cache addr ⟨d, now⟩).mergeSort
        (fun a b => b.2.timestamp ≤ a.2.timestamp)).length =
        (cacheSet cache addr ⟨d, now⟩).length := List.length_mergeSort _
    have hkeep : (setCachedData cache addr d now).length = 100 := by
      rw [hset, List.length_take, hlen]
      omega
    refine ⟨by omega, fun _ => ⟨hkeep, ?_⟩⟩
    refine ⟨((cacheSet cache addr ⟨d, now⟩).mergeSort
        (fun a b => b.2.timestamp ≤ a.2.timestamp)).drop 100, ?_, ?_, ?_⟩
    · have : (((cacheSet cache addr ⟨d, now⟩).mergeSort
          (fun a b => b.2.timestamp ≤ a.2.timestamp)).drop 100).length =
          (cacheSet cache addr ⟨d, now⟩).length - 100 := by
        rw [List.length_drop, hlen]
      intro hnil
      rw [hnil] at this
      simp at this
      omega
    · rw [hset, List.take_append_drop]
      exact (List.mergeSort_perm _ _).symm
    · have hpw : ((cacheSet cache addr ⟨d, now⟩).mergeSort
          (fun a b => b.2.timestamp ≤ a.2.timestamp)).Pairwise
          (fun a b => (decide (b.2.timestamp ≤ a.2.timestamp) : Bool) = true) := by
        refine List.sorted_mergeSort ?_ ?_ _
        · intro a b c hab hbc
          simp only [decide_eq_true_eq] at *
          exact le_trans hbc hab
        · intro a b
          simp only [Bool.or_eq_true, decide_eq_true_eq]
          exact le_total b.2.timestamp a.2.timestamp
      rw [← List.take_append_drop 100 ((cacheSet cache addr ⟨d, now⟩).mergeSort
          (fun a b => b.2.timestamp ≤ a.2.timestamp)), List.pairwise_append] at hpw
      intro x hx y hy
      rw [hset] at hy
      have := hpw.2.2 y hy x hx
      simpa using this
  · have hset : setCachedData cache addr d now = cacheSet cache addr ⟨d, now⟩ := by
      unfold setCachedData
      rw [if_neg h]
    refine ⟨?_, fun hc => absurd hc h⟩
    rw [hset]
    omega

/-- A 100-entry cache with distinct keys `"0"` .. `"99"` and increasing write
timestamps. -/
def c7WitnessCache : ChartCache :=
  (List.range 100).map (fun i => (Nat.repr i, ⟨witnessChartResult, (i : ℤ)⟩))

/-- Witness for C7: inserting a 101st distinct key evicts down to 100 entries,
dropping only entries at least as old as every kept one. -/
theorem c7_cache_capacity_witness :
    (setCachedData c7WitnessCache "fresh" witnessChartResult 100).length = 100 ∧
    ∃ dropped : ChartCache,
      dropped ≠ [] ∧
      (cacheSet c7WitnessCache "fresh" ⟨witnessChartResult, 100⟩).Perm
        (setCachedData c7WitnessCache "fresh" witnessChartResult 100 ++ dropped) ∧
      ∀ x ∈ dropped, ∀ y ∈ setCachedData c7WitnessCache "fresh" witnessChartResult 100,
        x.2.timestamp ≤ y.2.timestamp :=
  (c7_cache_capacity c7WitnessCache "fresh" witnessChartResult 100).2 (by decide)

/-- The Birdeye fallthrough step never answers 400. -/
theorem birdStep_ne_badRequest (birdeyeApiKey : Option String) (bird : Fetch BirdPriceData)
    (birdOv : Fetch BirdOverviewData) (dSym dNm : Option String) :
    birdStep birdeyeApiKey bird birdOv dSym dNm ≠ PriceResponse.badRequest := by
  unfold birdStep
  repeat' split
  all_goals simp

/-- The Jupiter fallthrough step never answers 400. -/
theorem jupStep_ne_badRequest (jup : Fetch JupData) (birdeyeApiKey : Option String)
    (bird : Fetch BirdPriceData) (birdOv : Fetch BirdOverviewData) (dSym dNm : Option String) :
    jupStep jup birdeyeApiKey bird birdOv dSym dNm ≠ PriceResponse.badRequest := by
  unfold jupStep
  repeat' split
  all_goals first
    | exact birdStep_ne_badRequest _ _ _ _ _
    | simp

/-- With a truthy address the token-price route never answers 400: every
branch of the aggregation returns a `priced` 200 body. -/
theorem tokenPriceGET_not_badRequest (address birdeyeApiKey : Option String)
    (dex : Fetch DexData) (jup : Fetch JupData) (bird : Fetch BirdPriceData)
    (birdOv : Fetch BirdOverviewData) (haddr : jsStrFalsy address = false) :
    tokenPriceGET address birdeyeApiKey dex jup bird birdOv ≠ PriceResponse.badRequest := by
  unfold tokenPriceGET
  rw [haddr]
  simp only [Bool.false_eq_true, if_false]
  repeat' split
  all_goals first
    | exact jupStep_ne_badRequest _ _ _ _ _ _
    | simp

/-- C8, counterexample: the claim asserts status 400 iff the `address`
parameter is missing; a request with the parameter present but empty
(`?address=`) yields the falsy string `""` and is also answered 400. -/
theorem c8_counterexample :
    tokenPriceGET (some "") none Fetch.fail Fetch.fail Fetch.fail Fetch.fail =
      PriceResponse.badRequest ∧
    (some "" : Option String) ≠ none := by
  constructor
  · rfl
  · simp

/-- C8, amended: the status is 400 iff the address parameter is missing or
empty (JavaScript-falsy); any request with a nonempty address is answered
200, and when no provider yields a positive price the 200 body carries
`success: false` and `price: 0` (with the DexScreener-discovered
symbol/name), so "no data found" is never a 5xx. -/
theorem c8_amended :
    ∀ (address birdeyeApiKey : Option String) (dex : Fetch DexData) (jup : Fetch JupData)
      (bird : Fetch BirdPriceData) (birdOv : Fetch BirdOverviewData),
      ((tokenPriceGET address birdeyeApiKey dex jup bird birdOv).status = 400 ↔
        jsStrFalsy address = true) ∧
      (jsStrFalsy address = false →
        (tokenPriceGET address birdeyeApiKey dex jup bird birdOv).status = 200) ∧
      (jsStrFalsy address = false →
        (∀ dp, dexAttempt dex = some dp → ¬ 0 < dp.price) →
        (∀ jp, jupAttempt jup = some jp → ¬ 0 < jp.price) →
        (jsStrFalsy birdeyeApiKey = true ∨ (∀ p, birdAttempt bird = some p → ¬ 0 < p)) →
        tokenPriceGET address birdeyeApiKey dex jup bird birdOv =
          PriceResponse.priced false none 0 0 0 (dexDiscovered dex).1 (dexDiscovered dex).2) := by
  intro address birdeyeApiKey dex jup bird birdOv
  have h200 : jsStrFalsy address = false →
      (tokenPriceGET address birdeyeApiKey dex jup bird birdOv).status = 200 := by
    intro haddr
    have hne := tokenPriceGET_not_badRequest address birdeyeApiKey dex jup bird birdOv haddr
    rcases hr : tokenPriceGET address birdeyeApiKey dex jup bird birdOv with _ | ⟨s, src, p, c, v, sy, nm⟩
    · exact absurd hr hne
    · rfl
  refine ⟨?_, h200, ?_⟩
  · constructor
    · intro h4
      by_contra hf
      have haddr : jsStrFalsy address = false := by
        cases hv : jsStrFalsy address
        · rfl
        · exact absurd hv hf
      have := h200 haddr
      omega
    · intro ht
      unfold tokenPriceGET
      rw [ht]
      rfl
  · intro haddr h1 h2 h3
    have hbird : birdStep birdeyeApiKey bird birdOv (dexDiscovered dex).1 (dexDiscovered dex).2 =
        PriceResponse.priced false none 0 0 0 (dexDiscovered dex).1 (dexDiscovered dex).2 := by
      unfold birdStep
      rcases h3 with hk | hb
      · rw [if_pos hk]
      · cases hk : jsStrFalsy birdeyeApiKey
        · rw [if_neg (by simp [hk])]
          rcases hba : birdAttempt bird with _ | p
          · rfl
          · dsimp only
            simp only [gt_iff_lt]
            rw [if_neg (hb p hba)]
        · rfl
    have hjup : jupStep jup birdeyeApiKey bird birdOv (dexDiscovered dex).1 (dexDiscovered dex).2 =
        PriceResponse.priced false none 0 0 0 (dexDiscovered dex).1 (dexDiscovered dex).2 := by
      unfold jupStep
      rcases hj : jupAttempt jup with _ | jp
      · exact hbird
      · dsimp only
        simp only [gt_iff_lt]
        rw [if_neg (h2 jp hj)]
        exact hbird
    unfold tokenPriceGET
    rw [haddr]
    simp only [Bool.false_eq_true, if_false]
    rcases hd : dexAttempt dex with _ | dp
    · exact hjup
    · dsimp only
      simp only [gt_iff_lt]
      rw [if_neg (h1 dp hd)]
      exact hjup

/-- Witness for C8: with a nonempty address and every provider failing, the
route answers 200 with `success: false`, `price: 0`. -/
theorem c8_amended_witness :
    (tokenPriceGET (some "So11111111111111111111111111111111111111112") none
      Fetch.fail Fetch.fail Fetch.fail Fetch.fail).status = 200 ∧
    tokenPriceGET (some "So11111111111111111111111111111111111111112") none
      Fetch.fail Fetch.fail Fetch.fail Fetch.fail =
      PriceResponse.priced false none 0 0 0 none none := by
  have h := c8_amended (some "So11111111111111111111111111111111111111112") none
    Fetch.fail Fetch.fail Fetch.fail Fetch.fail
  refine ⟨h.2.1 (by decide), ?_⟩
  have h3 := h.2.2 (by decide) (by intro dp hdp; cases hdp) (by intro jp hjp; cases hjp)
    (Or.inl (by decide))
  simpa using h3

/-- Jupiter response used in the C1 counterexample: price 0 (failed on price)
but symbol and name supplied. -/
def c1JupData : JupData :=
  ⟨some { price := some 0, priceWaifuge24h := none, volume24h := none
          symbol := some "JUP", name := some "Jupiter Token" }⟩

/-- Birdeye response used in the C1 counterexample: successful price 1. -/
def c1BirdData : BirdPriceData :=
  ⟨true, some ⟨some 1, none⟩⟩

/-- C1, counterexample: DexScreener fails entirely, Jupiter fails on price but
supplies `symbol`/`name`, Birdeye wins with price 1 and no metadata. The
result of the winning adapter lacks `tokenSymbol`/`tokenName` and an earlier
adapter (Jupiter) supplied them, yet the route returns them as `null`: only
DexScreener-discovered metadata is ever carried forward. -/
theorem c1_counterexample :
    tokenPriceGET (some "addr") (some "key") Fetch.fail (Fetch.resp true c1JupData)
        (Fetch.resp true c1BirdData) Fetch.fail =
      PriceResponse.priced true (some Source.birdeye) 1 0 0 none none ∧
    jupAttempt (Fetch.resp true c1JupData) =
      some { price := 0, change24h := 0, volume24h := 0
             symbol := some "JUP", name := some "Jupiter Token" } ∧
    (none : Option String) ≠ some "JUP" := by
  decide

/-- C1, amended: the route tries DexScreener, Jupiter, then Birdeye (the last
only with an API key configured) and returns the first result with positive
price; `tokenSymbol`/`tokenName` come from DexScreener whenever it discovered
them — even when the winning adapter supplied its own — a Jupiter win falls
back to the Jupiter metadata only where DexScreener had none, and a Birdeye
win carries exactly the DexScreener-discovered metadata (Jupiter discoveries
are never carried forward). -/
theorem c1_amended :
    ∀ (address birdeyeApiKey : Option String) (dex : Fetch DexData) (jup : Fetch JupData)
      (bird : Fetch BirdPriceData) (birdOv : Fetch BirdOverviewData),
      jsStrFalsy address = false →
      (∀ dp, dexAttempt dex = some dp → 0 < dp.price →
        tokenPriceGET address birdeyeApiKey dex jup bird birdOv =
          PriceResponse.priced true (some Source.dexscreener) dp.price dp.change24h dp.volume24h
            dp.tokenSymbol dp.tokenName) ∧
      (∀ jp, (∀ dp, dexAttempt dex = some dp → ¬ 0 < dp.price) →
        jupAttempt jup = some jp → 0 < jp.price →
        tokenPriceGET address birdeyeApiKey dex jup bird birdOv =
          PriceResponse.priced true (some Source.jupiter) jp.price jp.change24h jp.volume24h
            (jsOrStr (dexDiscovered dex).1 jp.symbol) (jsOrStr (dexDiscovered dex).2 jp.name)) ∧
      (∀ p, (∀ dp, dexAttempt dex = some dp → ¬ 0 < dp.price) →
        (∀ jp, jupAttempt jup = some jp → ¬ 0 < jp.price) →
        jsStrFalsy birdeyeApiKey = false →
        birdAttempt bird = some p → 0 < p →
        tokenPriceGET address birdeyeApiKey dex jup bird birdOv =
          PriceResponse.priced true (some Source.birdeye) p
            (birdOverviewStats birdOv).1 (birdOverviewStats birdOv).2
            (dexDiscovered dex).1 (dexDiscovered dex).2) := by
  intro address birdeyeApiKey dex jup bird birdOv haddr
  refine ⟨?_, ?_, ?_⟩
  · intro dp hd hp
    unfold tokenPriceGET
    rw [haddr, hd]
    simp only [Bool.false_eq_true, if_false]
    try dsimp only
    simp only [gt_iff_lt]
    rw [if_pos hp]
  · intro jp h1 hj hp
    have hjup : jupStep jup birdeyeApiKey bird birdOv
        (dexDiscovered dex).1 (dexDiscovered dex).2 =
        PriceResponse.priced true (some Source.jupiter) jp.price jp.change24h jp.volume24h
          (jsOrStr (dexDiscovered dex).1 jp.symbol) (jsOrStr (dexDiscovered dex).2 jp.name) := by
      unfold jupStep
      rw [hj]
      try dsimp only
      simp only [gt_iff_lt]
      rw [if_pos hp]
    unfold tokenPriceGET
    rw [haddr]
    simp only [Bool.false_eq_true, if_false]
    rcases hd : dexAttempt dex with _ | dp
    · exact hjup
    · dsimp only
      simp only [gt_iff_lt]
      rw [if_neg (h1 dp hd)]
      exact hjup
  · intro p h1 h2 hk hba hp
    have hbird : birdStep birdeyeApiKey bird birdOv
        (dexDiscovered dex).1 (dexDiscovered dex).2 =
        PriceResponse.priced true (some Source.birdeye) p
          (birdOverviewStats birdOv).1 (birdOverviewStats birdOv).2
          (dexDiscovered dex).1 (dexDiscovered dex).2 := by
      unfold birdStep
      rw [if_neg (by simp [hk]), hba]
      try dsimp only
      simp only [gt_iff_lt]
      rw [if_pos hp]
    have hjup : jupStep jup birdeyeApiKey bird birdOv
        (dexDiscovered dex).1 (dexDiscovered dex).2 =
        PriceResponse.priced true (some Source.birdeye) p
          (birdOverviewStats birdOv).1 (birdOverviewStats birdOv).2
          (dexDiscovered dex).1 (dexDiscovered dex).2 := by
      unfold jupStep
      rcases hj : jupAttempt jup with _ | jp
      · exact hbird
      · dsimp only
        simp only [gt_iff_lt]
        rw [if_neg (h2 jp hj)]
        exact hbird
    unfold tokenPriceGET
    rw [haddr]
    simp only [Bool.false_eq_true, if_false]
    rcases hd : dexAttempt dex with _ | dp
    · exact hjup
    · dsimp only
      simp only [gt_iff_lt]
      rw [if_neg (h1 dp hd)]
      exact hjup

/-- Witness for C1: the Jupiter-wins case of the amended theorem at a concrete
input where DexScreener failed and Jupiter returns price 2 with its own
symbol. -/
theorem c1_amended_witness :
    tokenPriceGET (some "addr2") none Fetch.fail
        (Fetch.resp true ⟨some { price := some 2, priceWaifuge24h := some 1
                                 volume24h := some 3, symbol := some "WIF"
                                 name := some "Waifu" }⟩)
        Fetch.fail Fetch.fail =
      PriceResponse.priced true (some Source.jupiter) 2 1 3 (some "WIF") (some "Waifu") := by
  have h := (c1_amended (some "addr2") none Fetch.fail
      (Fetch.resp true ⟨some { price := some 2, priceWaifuge24h := some 1
                               volume24h := some 3, symbol := some "WIF"
                               name := some "Waifu" }⟩)
      Fetch.fail Fetch.fail (by decide)).2.1
      { price := 2, change24h := 1, volume24h := 3, symbol := some "WIF", name := some "Waifu" }
      (by intro dp hdp; cases hdp) (by decide) (by norm_num)
  simpa using h

/-- Every successful result of the part_001 aggregator has a positive price:
each provider leg returns only after checking `price > 0`. -/
theorem serverFetchTokenData_ok_pos (birdeyeApiKey : Option String) (dex : Fetch DexData)
    (jup : Fetch JupData) (bird : Fetch BirdPriceData) (birdOv : Fetch BirdOverviewData)
    (td : StreamFetched)
    (h : serverFetchTokenData birdeyeApiKey dex jup bird birdOv = Except.ok td) :
    0 < td.price := by
  unfold serverFetchTokenData at h
  dsimp only at h
  repeat' split at h
  all_goals simp_all
  all_goals (rw [← h]; assumption)

/-- Along a run of the polling loop, `lastData.price` is zero exactly when no
`update` frame has been sent yet (successful fetches always carry a positive
price). -/
theorem runPoll_price_zero_iff (rounds : List PollArgs) :
    ((runPoll rounds).1.price = 0 ↔ (runPoll rounds).2.countP isUpdateEvent = 0) := by
  suffices h : ∀ (rs : List PollArgs) (st : LastData × List StreamEvent),
      (st.1.price = 0 ↔ st.2.countP isUpdateEvent = 0) →
      ((rs.foldl (fun st a => ((pollStep st.1 a.fetched a.now).1,
          st.2 ++ (pollStep st.1 a.fetched a.now).2)) st).1.price = 0 ↔
        (rs.foldl (fun st a => ((pollStep st.1 a.fetched a.now).1,
          st.2 ++ (pollStep st.1 a.fetched a.now).2)) st).2.countP isUpdateEvent = 0) by
    exact h rounds (initLastData, []) (by simp [initLastData])
  intro rs
  induction rs with
  | nil => intro st h; exact h
  | cons a rest ih =>
    intro st h
    simp only [List.foldl_cons]
    apply ih
    rcases hf : a.fetched with msg | td
    · simp only [pollStep, List.countP_append]
      simpa [isUpdateEvent] using h
    · have hpos : 0 < td.price :=
        serverFetchTokenData_ok_pos a.birdeyeApiKey a.dex a.jup a.bird a.birdOv td hf
      by_cases hC : (derivedLastData td).price ≠ st.1.price ∨
          (derivedLastData td).supply ≠ st.1.supply ∨
          (derivedLastData td).decimals ≠ st.1.decimals ∨ st.1.price = 0
      · simp only [pollStep, if_pos hC, List.countP_append]
        constructor
        · intro hzero
          exact absurd hzero (by simp [derivedLastData]; exact ne_of_gt hpos)
        · intro hcount
          simp [isUpdateEvent] at hcount
      · simp only [pollStep, if_neg hC, List.countP_append]
        push_neg at hC
        constructor
        · intro hzero
          exact absurd hzero hC.2.2.2
        · intro hcount
          simp only [List.countP_nil, Nat.add_zero] at hcount
          exact absurd (h.mpr hcount) hC.2.2.2

/-- Two `lastData` records are equal iff they agree on all three fields. -/
theorem lastData_eq_iff (x y : LastData) :
    x = y ↔ (x.price = y.price ∧ x.supply = y.supply ∧ x.decimals = y.decimals) := by
  cases x
  cases y
  simp only [LastData.mk.injEq]
  tauto

/-- C4, confirmed: in a streaming session, a poll round whose fetch succeeds
emits an `update` frame iff the derived `{supply, price, decimals}` record
differs from `lastData` (the last-sent snapshot) or no `update` has ever been
sent; on emission `lastData` is set to the new record; and a poll that changes
only `change24h`/`volume24h` (derived record equal to `lastData`) emits
nothing and leaves `lastData` untouched. -/
theorem c4_update_iff :
    ∀ (rounds : List PollArgs) (a : PollArgs) (td : StreamFetched) (now : ℚ),
      a.fetched = Except.ok td →
      (((pollStep (runPoll rounds).1 (Except.ok td) now).2.countP isUpdateEvent ≠ 0) ↔
        (derivedLastData td ≠ (runPoll rounds).1 ∨
          (runPoll rounds).2.countP isUpdateEvent = 0)) ∧
      ((pollStep (runPoll rounds).1 (Except.ok td) now).2.countP isUpdateEvent ≠ 0 →
        (pollStep (runPoll rounds).1 (Except.ok td) now).1 = derivedLastData td) ∧
      (derivedLastData td = (runPoll rounds).1 →
        pollStep (runPoll rounds).1 (Except.ok td) now = ((runPoll rounds).1, [])) := by
  intro rounds a td now hf
  have hpos : 0 < td.price :=
    serverFetchTokenData_ok_pos a.birdeyeApiKey a.dex a.jup a.bird a.birdOv td hf
  have hbr := runPoll_price_zero_iff rounds
  have hne : derivedLastData td ≠ (runPoll rounds).1 ↔
      ((derivedLastData td).price ≠ (runPoll rounds).1.price ∨
        (derivedLastData td).supply ≠ (runPoll rounds).1.supply ∨
        (derivedLastData td).decimals ≠ (runPoll rounds).1.decimals) := by
    rw [ne_eq, lastData_eq_iff]
    tauto
  by_cases hC : (derivedLastData td).price ≠ (runPoll rounds).1.price ∨
      (derivedLastData td).supply ≠ (runPoll rounds).1.supply ∨
      (derivedLastData td).decimals ≠ (runPoll rounds).1.decimals ∨
      (runPoll rounds).1.price = 0
  · refine ⟨?_, ?_, ?_⟩
    · simp only [pollStep, if_pos hC, List.countP_cons, List.countP_nil, isUpdateEvent]
      constructor
      · intro _
        rcases hC with h | h | h | h
        · exact Or.inl (hne.mpr (Or.inl h))
        · exact Or.inl (hne.mpr (Or.inr (Or.inl h)))
        · exact Or.inl (hne.mpr (Or.inr (Or.inr h)))
        · exact Or.inr (hbr.mp h)
      · intro _
        simp
    · intro _
      simp only [pollStep, if_pos hC]
    · intro heq
      exfalso
      rcases hC with h | h | h | h
      · exact h (by rw [heq])
      · exact h (by rw [heq])
      · exact h (by rw [heq])
      · rw [← heq] at h
        have hdp : (derivedLastData td).price = td.price := rfl
        rw [hdp] at h
        exact absurd h (ne_of_gt hpos)
  · have hC' := hC
    push_neg at hC'
    refine ⟨?_, ?_, ?_⟩
    · simp only [pollStep, if_neg hC, List.countP_nil]
      constructor
      · intro hfalse
        exact absurd rfl hfalse
      · intro hor
        rcases hor with hd | hz
        · refine absurd (hne.mp hd) ?_
          push_neg
          exact ⟨hC'.1, hC'.2.1, hC'.2.2.1⟩
        · exact absurd (hbr.mpr hz) hC'.2.2.2
    · intro hfalse
      exfalso
      apply hfalse
      simp only [pollStep, if_neg hC, List.countP_nil]
    · intro _
      simp only [pollStep, if_neg hC]

/-- Round inputs for the C4 witness: DexScreener fails, Jupiter returns
price 1. -/
def c4Args : PollArgs :=
  { birdeyeApiKey := none, dex := Fetch.fail
    jup := Fetch.resp true ⟨some { price := some 1, priceWaifuge24h := none
                                   volume24h := none, symbol := none, name := none }⟩
    bird := Fetch.fail, birdOv := Fetch.fail, now := 0 }

/-- The snapshot the C4 witness round fetches. -/
def c4Td : StreamFetched := ⟨1, 0, 0, 0, 9⟩

/-- Witness for C4: the theorem applied to the first poll round of a fresh
session, whose fetch succeeds with price 1. -/
theorem c4_update_iff_witness :
    (((pollStep (runPoll []).1 (Except.ok c4Td) 0).2.countP isUpdateEvent ≠ 0) ↔
      (derivedLastData c4Td ≠ (runPoll []).1 ∨
        (runPoll []).2.countP isUpdateEvent = 0)) ∧
    ((pollStep (runPoll []).1 (Except.ok c4Td) 0).2.countP isUpdateEvent ≠ 0 →
      (pollStep (runPoll []).1 (Except.ok c4Td) 0).1 = derivedLastData c4Td) ∧
    (derivedLastData c4Td = (runPoll []).1 →
      pollStep (runPoll []).1 (Except.ok c4Td) 0 = ((runPoll []).1, [])) :=
  c4_update_iff [] c4Args c4Td 0 (by rfl)

/-- Event trace for the C3 counterexample: a first message (`happy`) is
announced at t=10000; within the next 5 s window the emotion flips to `sad`
(t=11000, arms the timer for t=15000) and back to `happy` (t=12000, filtered
out because it equals the last announced emotion, so the pending emotion
stays `sad`); the timer then fires at t=15000. -/
def c3Trace : List SchedEvent :=
  [SchedEvent.emote Emotion.happy 10000, SchedEvent.emote Emotion.sad 11000,
   SchedEvent.emote Emotion.happy 12000, SchedEvent.timer 15000]

/-- C3, counterexample: for the burst `sad` then `happy` delivered inside one
5-second window, the single message announced for that window (at t=15000) is
`sad` — it does not reflect the last emotion of the burst, which was `happy`. -/
theorem c3_counterexample :
    validTrace initSched c3Trace = true ∧
    (runSched initSched c3Trace).announced =
      [(15000, Emotion.sad), (10000, Emotion.happy)] ∧
    Emotion.sad ≠ Emotion.happy := by
  decide

/-- Pairwise 5-second spacing of the announcement log (newest first). -/
def announceGap (l : List (ℤ × Emotion)) : Prop :=
  l.Pairwise (fun a b => b.1 + 5000 ≤ a.1)

/-- Inductive invariant of the scheduler: announcements are spaced by at least
5 s, all of them precede `lastMessageAt`, `lastMessageAt` never exceeds the
clock, and an armed timer is due no earlier than 5 s past the last
announcement. -/
def SchedInv (s : SchedState) : Prop :=
  announceGap s.announced ∧
  (∀ a ∈ s.announced, a.1 ≤ s.lastMessageAt) ∧
  s.lastMessageAt ≤ s.clock ∧
  (∀ t, s.messageTimer = some t → s.lastMessageAt + 5000 ≤ t)

/-- The initial scheduler state satisfies the invariant. -/
theorem schedInv_init : SchedInv initSched := by
  refine ⟨List.Pairwise.nil, ?_, le_refl _, ?_⟩ <;> simp [initSched]

/-- The invariant is preserved by every valid scheduler event. -/
theorem schedInv_step (s : SchedState) (e : SchedEvent) (hs : SchedInv s)
    (hv : validEvent s e = true) : SchedInv (schedStep s e) := by
  obtain ⟨hgap, hanns, hlc, htimer⟩ := hs
  cases e with
  | emote em t =>
    simp only [validEvent, decide_eq_true_eq] at hv
    simp only [schedStep, scheduleMessage]
    by_cases h1 : s.lastMessageEmotion = some em
    · rw [if_pos h1]
      exact ⟨hgap, hanns, le_trans hlc hv, htimer⟩
    · rw [if_neg h1]
      by_cases h2 : 5000 ≤ t - s.lastMessageAt ∧ s.messageTimer = none
      · rw [if_pos h2]
        refine ⟨?_, ?_, le_refl _, ?_⟩
        · show announceGap ((t, em) :: s.announced)
          refine List.pairwise_cons.mpr ⟨?_, hgap⟩
          intro b hb
          have := hanns b hb
          have h2a := h2.1
          omega
        · show ∀ a ∈ (t, em) :: s.announced, a.1 ≤ t
          intro a ha
          rcases List.mem_cons.mp ha with h | h
          · rw [h]
          · have := hanns a h
            have h2a := h2.1
            omega
        · show ∀ t2, s.messageTimer = some t2 → t + 5000 ≤ t2
          intro t2 ht2
          rw [h2.2] at ht2
          cases ht2
      · rw [if_neg h2]
        by_cases h3 : (s.messageTimer).isSome = true
        · rw [if_pos h3]
          exact ⟨hgap, hanns, le_trans hlc hv, htimer⟩
        · rw [if_neg h3]
          refine ⟨hgap, hanns, le_trans hlc hv, ?_⟩
          show ∀ t2, some (t + max 0 (5000 - (t - s.lastMessageAt))) = some t2 →
            s.lastMessageAt + 5000 ≤ t2
          intro t2 ht2
          have ht2v : t + max 0 (5000 - (t - s.lastMessageAt)) = t2 :=
            (Option.some.injEq _ _).mp ht2
          omega
  | timer t =>
    simp only [validEvent, Bool.and_eq_true, decide_eq_true_eq] at hv
    obtain ⟨hclk, hdue⟩ := hv
    rcases hmt : s.messageTimer with _ | due
    · rw [hmt] at hdue
      cases hdue
    · rw [hmt] at hdue
      simp only [decide_eq_true_eq] at hdue
      have hdue5 : s.lastMessageAt + 5000 ≤ due := htimer due hmt
      simp only [schedStep, fireMessageTimer]
      rcases hp : s.pendingEmotion with _ | p
      · exact ⟨hgap, hanns, le_trans hlc hclk, by intro t2 ht2; cases ht2⟩
      · dsimp only
        by_cases h1 : s.lastMessageEmotion = some p
        · rw [if_pos h1]
          exact ⟨hgap, hanns, le_trans hlc hclk, by intro t2 ht2; cases ht2⟩
        · rw [if_neg h1]
          refine ⟨?_, ?_, le_refl _, by intro t2 ht2; cases ht2⟩
          · show announceGap ((t, p) :: s.announced)
            refine List.pairwise_cons.mpr ⟨?_, hgap⟩
            intro b hb
            have := hanns b hb
            omega
          · show ∀ a ∈ (t, p) :: s.announced, a.1 ≤ t
            intro a ha
            rcases List.mem_cons.mp ha with h | h
            · rw [h]
            · have := hanns a h
              omega

/-- The invariant holds after any valid trace from an invariant state. -/
theorem schedInv_run (tr : List SchedEvent) :
    ∀ s, SchedInv s → validTrace s tr = true → SchedInv (runSched s tr) := by
  induction tr with
  | nil => intro s hs _; exact hs
  | cons e es ih =>
    intro s hs hv
    simp only [validTrace, Bool.and_eq_true] at hv
    exact ih (schedStep s e) (schedInv_step s e hs hv.1) hv.2

/-- A list whose entries are pairwise at least 5 s apart has at most one entry
inside any half-open 5-second window. -/
theorem announceGap_window (l : List (ℤ × Emotion)) (hl : announceGap l) (w : ℤ) :
    l.countP (fun a => decide (w ≤ a.1) && decide (a.1 < w + 5000)) ≤ 1 := by
  induction l with
  | nil => simp
  | cons a tl ih =>
    have hcons := List.pairwise_cons.mp hl
    have ihtl := ih hcons.2
    rw [List.countP_cons]
    by_cases hp : (w ≤ a.1 ∧ a.1 < w + 5000)
    · have hzero : tl.countP (fun a => decide (w ≤ a.1) && decide (a.1 < w + 5000)) = 0 := by
        rw [List.countP_eq_zero]
        intro b hb
        have hgab := hcons.1 b hb
        simp only [Bool.and_eq_true, decide_eq_true_eq, not_and, not_lt]
        intro hwb
        omega
      simp only [hzero]
      split <;> omega
    · have : (decide (w ≤ a.1) && decide (a.1 < w + 5000)) = false := by
        simp only [Bool.and_eq_false_iff, decide_eq_false_iff_not]
        by_cases h1 : w ≤ a.1
        · right; intro h2; exact hp ⟨h1, h2⟩
        · left; exact h1
      simp only [this]
      simpa using ihtl

/-- The last emotion of a burst (oldest first) that differs from the given
last-announced emotion, if any. -/
def lastDiffering (lastE : Option Emotion) : List (Emotion × ℤ) → Option Emotion
  | [] => none
  | p :: rest =>
    match lastDiffering lastE rest with
    | some e => some e
    | none => if lastE = some p.1 then none else some p.1

/-- Unfolding lemma for `lastDiffering` on a cons cell. -/
theorem lastDiffering_cons (lastE : Option Emotion) (p : Emotion × ℤ)
    (rest : List (Emotion × ℤ)) :
    lastDiffering lastE (p :: rest) =
      (match lastDiffering lastE rest with
        | some e => some e
        | none => if lastE = some p.1 then none else some p.1) := rfl

/-- While a timer is armed, delivering a burst of `scheduleMessage` calls
announces nothing, changes none of the message bookkeeping except the pending
emotion, and leaves as pending the last burst emotion that differed from the
last-announced one. -/
theorem emoteBurst_armed (burst : List (Emotion × ℤ)) :
    ∀ (s : SchedState) (t : ℤ), s.messageTimer = some t →
      (emoteBurst s burst).announced = s.announced ∧
      (emoteBurst s burst).lastMessageEmotion = s.lastMessageEmotion ∧
      (emoteBurst s burst).lastMessageAt = s.lastMessageAt ∧
      (emoteBurst s burst).messageTimer = some t ∧
      (emoteBurst s burst).pendingEmotion =
        (match lastDiffering s.lastMessageEmotion burst with
          | some e => some e
          | none => s.pendingEmotion) := by
  induction burst with
  | nil =>
    intro s t ht
    exact ⟨rfl, rfl, rfl, ht, rfl⟩
  | cons p rest ih =>
    intro s t ht
    have hstep : emoteBurst s (p :: rest) = emoteBurst (scheduleMessage s p.1 p.2) rest := rfl
    by_cases h1 : s.lastMessageEmotion = some p.1
    · have hs' : scheduleMessage s p.1 p.2 = { s with clock := p.2 } := by
        unfold scheduleMessage
        rw [if_pos h1]
      rw [hstep, hs']
      obtain ⟨e1, e2, e3, e4, e5⟩ := ih { s with clock := p.2 } t ht
      refine ⟨e1, e2, e3, e4, ?_⟩
      dsimp only at e5 ⊢
      rw [e5, lastDiffering_cons]
      rcases lastDiffering s.lastMessageEmotion rest with _ | e
      · simp [h1]
      · rfl
    · have hs' : scheduleMessage s p.1 p.2 =
          { s with clock := p.2, pendingEmotion := some p.1 } := by
        unfold scheduleMessage
        rw [if_neg h1]
        have hcond : ¬ (5000 ≤ p.2 - s.lastMessageAt ∧ s.messageTimer = none) := by
          intro hc
          rw [ht] at hc
          cases hc.2
        rw [if_neg hcond]
        rw [if_pos (by rw [ht]; rfl)]
      rw [hstep, hs']
      obtain ⟨e1, e2, e3, e4, e5⟩ := ih { s with clock := p.2, pendingEmotion := some p.1 } t ht
      refine ⟨e1, e2, e3, e4, ?_⟩
      dsimp only at e5 ⊢
      rw [e5, lastDiffering_cons]
      rcases lastDiffering s.lastMessageEmotion rest with _ | e
      · simp [h1]
      · rfl

/-- C3, amended: (i) along any valid trace from mount, at most one message is
announced within any 5-second window; (ii) a burst of emotion changes
delivered while the message timer is armed announces nothing, and when the
timer then fires the message announced is for the last emotion of the burst
that differed from the last-announced emotion when it arrived (emotions equal
to the last-announced one never update the pending emotion; no message if
that pending emotion equals the last-announced one). -/
theorem c3_amended :
    (∀ tr, validTrace initSched tr = true →
      ∀ w, (runSched initSched tr).announced.countP
          (fun a => decide (w ≤ a.1) && decide (a.1 < w + 5000)) ≤ 1) ∧
    (∀ (s : SchedState) (burst : List (Emotion × ℤ)) (t : ℤ),
      s.messageTimer = some t →
      (emoteBurst s burst).announced = s.announced ∧
      ∀ now, (fireMessageTimer (emoteBurst s burst) now).announced =
        (match (match lastDiffering s.lastMessageEmotion burst with
                  | some e => some e
                  | none => s.pendingEmotion) with
          | some p =>
            if s.lastMessageEmotion = some p then s.announced
            else (now, p) :: s.announced
          | none => s.announced)) := by
  constructor
  · intro tr hv w
    have hinv := schedInv_run tr initSched schedInv_init hv
    exact announceGap_window _ hinv.1 w
  · intro s burst t ht
    obtain ⟨e1, e2, e3, e4, e5⟩ := emoteBurst_armed burst s t ht
    refine ⟨e1, ?_⟩
    intro now
    unfold fireMessageTimer
    dsimp only
    rcases hpe : (emoteBurst s burst).pendingEmotion with _ | p
    · rw [← e5, hpe]
      dsimp only
      exact e1
    · rw [← e5, hpe]
      dsimp only
      rw [e2]
      by_cases hle : s.lastMessageEmotion = some p
      · rw [if_pos hle, if_pos hle]
        dsimp only
        exact e1
      · rw [if_neg hle, if_neg hle]
        dsimp only
        rw [e1]

/-- A concrete armed scheduler state for the C3 witness: `happy` was announced
at t=10000 and a timer is armed for t=15000. -/
def c3Armed : SchedState :=
  { lastMessageAt := 10000, lastMessageEmotion := some Emotion.happy
    pendingEmotion := some Emotion.sad, messageTimer := some 15000
    announced := [(10000, Emotion.happy)], clock := 11000 }

/-- Witness for C3: the amended theorem applied to the counterexample trace
(window starting at t=11000) and to a concrete armed state with a one-element
burst. -/
theorem c3_amended_witness :
    (runSched initSched c3Trace).announced.countP
        (fun a => decide ((11000 : ℤ) ≤ a.1) && decide (a.1 < 11000 + 5000)) ≤ 1 ∧
    (emoteBurst c3Armed [(Emotion.sad, 11000)]).announced = c3Armed.announced :=
  ⟨c3_amended.1 c3Trace (by decide) 11000,
   (c3_amended.2 c3Armed [(Emotion.sad, 11000)] 15000 rfl).1⟩
